import Mathlib

/-!
Verification of the CardDealerPro image-upload automation against its
specification.  The Python sources are shallowly embedded: every fallible
call returns `Except PyError`, browser effects are represented by explicit
action traces, and the behaviour of the remote UI (which element appears,
which wait times out, …) is an explicit environment parameter.  String
messages follow the f-strings of the source, with rich-console markup dropped.
-/

namespace CardUpload

/-- Python exception values observed by the embedded code.  `msg` plays the
role of `str(e)`; for the Selenium exception classes we use the class name. -/
inductive PyError
  | timeoutError
  | noSuchElement
  | staleElement
  | clickIntercepted
  | typeError (m : String)
  | valueError (m : String)
  | fileNotFound (m : String)
  | exception (m : String)
  deriving Repr, DecidableEq

/-- The text `str(e)` of an exception, used when errors are interpolated into
recorded messages. -/
def PyError.msg : PyError → String
  | .timeoutError => "TimeoutException"
  | .noSuchElement => "NoSuchElementException"
  | .staleElement => "StaleElementReferenceException"
  | .clickIntercepted => "ElementClickInterceptedException"
  | .typeError m => m
  | .valueError m => m
  | .fileNotFound m => m
  | .exception m => m

/-! ### Constants from `src/config.py` -/

/-- From `config.py`: maximum number of login attempts before giving up. -/
def MAX_LOGIN_RETRIES : Nat := 3

/-- From `config.py`: fallback CSS selectors tried when the batch-id regex fails. -/
def BATCH_ID_FALLBACK_SELECTORS : List String :=
  ["input[name=\"batch_id\"]", "[data-batch-id]", ".batch-info [data-id]", "#batch_id"]

/-! ### Image pipeline (`src/scripts/rotate_images.py` and
`CardDealerProWorkflow._rotate_images` in `src/scripts/image_upload_workflow.py`)

A file is modelled by its final path component `name`, its `Path.suffix`
(the final extension, part of `name`), whether it is a regular file, and
whether opening/saving it raises (unreadable or corrupt file). -/

structure PyFile where
  name : String
  suffix : String
  isFile : Bool := true
  saveRaises : Option String := none
  deriving Repr, DecidableEq

/-- A folder argument: absent, present but not a directory, or a directory
with its entries. -/
inductive PyFolder
  | missing (path : String)
  | notDir (path : String)
  | dir (path : String) (files : List PyFile)
  deriving Repr, DecidableEq

/-- The `supported_formats` set appearing in both rotation entry points. -/
def supported_formats : List String := [".jpg", ".jpeg", ".png", ".tiff", ".tif", ".bmp"]

/-- ASCII lower-casing of a character list (`str.lower()` on the names and
suffixes occurring here, which are ASCII). -/
def lowerChars (l : List Char) : List Char := l.map Char.toLower

/-- Python `str.lower()` as a `String` operation. -/
def lowerString (s : String) : String := String.mk (lowerChars s.data)

/-- The `image_files` filter: regular files whose lower-cased suffix is a
supported format. -/
def eligibleFile (f : PyFile) : Bool :=
  f.isFile && supported_formats.contains (lowerString f.suffix)

/-- The Python test `pat in s` on strings: `pat` occurs contiguously in `s`. -/
def containsSub (pat : List Char) : List Char → Bool
  | [] => pat.isPrefixOf []
  | c :: t => pat.isPrefixOf (c :: t) || containsSub pat t

/-- Per-file classification of both rotation entry points: `front` in the
lower-cased filename gives EXIF orientation 8, otherwise `back` gives 6,
otherwise the file is left alone. -/
def classifyOrientation (filename : String) : Option Nat :=
  if containsSub "front".data (lowerChars filename.data) then some 8
  else if containsSub "back".data (lowerChars filename.data) then some 6
  else none

/-- Counters accumulated by the rotation loop (the `stats` dict). -/
structure RotateStats where
  front : Nat := 0
  back : Nat := 0
  skipped : Nat := 0
  errors : Nat := 0
  deriving Repr, DecidableEq

def RotateStats.add (a b : RotateStats) : RotateStats :=
  ⟨a.front + b.front, a.back + b.back, a.skipped + b.skipped, a.errors + b.errors⟩

/-- One iteration of the rotation loop: the statistics delta together with the
EXIF orientation writes performed on disk (file name, orientation value).
The role counter is incremented before the save is attempted, so a file whose
save raises is still counted as front/back and additionally as an error; no
write happens for it.  Unclassified files are skipped without being opened. -/
def processFile (f : PyFile) : RotateStats × List (String × Nat) :=
  match classifyOrientation f.name with
  | some o =>
    let roleDelta : RotateStats := if o = 8 then { front := 1 } else { back := 1 }
    match f.saveRaises with
    | none => (roleDelta, [(f.name, o)])
    | some _ => ({ roleDelta with errors := 1 }, [])
  | none => ({ skipped := 1 }, [])

/-- The rotation loop over the enumerated image files. -/
def rotateLoop : List PyFile → RotateStats × List (String × Nat)
  | [] => ({}, [])
  | f :: rest =>
    let (d, w) := processFile f
    let (s, ws) := rotateLoop rest
    (d.add s, w ++ ws)

/-- Result dictionary of the stand-alone `rotate_images` script. -/
structure ScriptStats where
  total : Nat := 0
  front : Nat := 0
  back : Nat := 0
  skipped : Nat := 0
  errors : Nat := 0
  deriving Repr, DecidableEq

/-- Model of `rotate_images` from `src/scripts/rotate_images.py`: raises
`FileNotFoundError` for a missing folder and `ValueError` for a non-directory,
returns the all-zero statistics dictionary when no image file passes the
extension filter, and otherwise runs the rotation loop. -/
def rotate_images (folder : PyFolder) : Except PyError ScriptStats :=
  match folder with
  | .missing p => .error (.fileNotFound ("Folder not found: " ++ p))
  | .notDir p => .error (.valueError ("Not a directory: " ++ p))
  | .dir _ files =>
    let image_files := files.filter eligibleFile
    if image_files.isEmpty then .ok {}
    else
      let (s, _) := rotateLoop image_files
      .ok ⟨image_files.length, s.front, s.back, s.skipped, s.errors⟩

/-! ### Workflow job state (`CardDealerProWorkflow` instance attributes) -/

/-- The mutable per-job attributes of `CardDealerProWorkflow` that the claims
talk about.  `step_timings` keeps only the insertion order of the recorded
step names (the Python dict maps them to elapsed seconds); `last_error = none`
models a falsy `self.last_error`. -/
structure Workflow where
  step_timings : List String := []
  current_step : String := "Init"
  last_error : Option String := none
  rotated_image_paths : List String := []
  total_images : Nat := 0
  deriving Repr, DecidableEq

/-- Model of `CardDealerProWorkflow._rotate_images`: sets `current_step`, fails (with a
recorded message and a `False` return) for a missing folder or when no image
file passes the filter, and otherwise stores the full enumerated path list,
records its own timing entry and returns `True`.  All internal exceptions are
caught and turned into a `False` return (a non-directory folder makes
`iterdir` raise, landing in that handler); per-file save errors only bump the
error counter. -/
def _rotate_images (folder : PyFolder) (s : Workflow) : Workflow × Bool :=
  let s := { s with current_step := "Rotate Images" }
  match folder with
  | .missing p => ({ s with last_error := some ("Image folder not found: " ++ p) }, false)
  | .notDir p => ({ s with last_error := some ("Rotate Images failed: Not a directory: " ++ p) }, false)
  | .dir p files =>
    let image_files := files.filter eligibleFile
    if image_files.isEmpty then
      ({ s with last_error := some ("No image files found in " ++ p) }, false)
    else
      ({ s with
          rotated_image_paths := image_files.map PyFile.name,
          step_timings := s.step_timings ++ ["Rotate Images"],
          total_images := image_files.length }, true)

/-! ### Element wait layer (`ElementWaiter` in `src/tools/web_automation_tools.py`)

Each primitive performs exactly one bounded wait; the behaviour of the remote UI
for that single wait is the `WaitResult` parameter.  Next to the result we
return the list of console messages the call emits (markup stripped). -/

/-- Outcome of one `WebDriverWait.until` call. -/
inductive WaitResult
  | available
  | timedOut
  deriving Repr, DecidableEq

/-- Opaque handle standing for a located `WebElement`. -/
structure WebElement where
  id : Nat := 0
  deriving Repr, DecidableEq

/-- Model of `ElementWaiter.wait_for_element_visible`: returns the element, or logs the
selector and re-raises the timeout. -/
def wait_for_element_visible (w : WaitResult) (selector : String) :
    Except PyError WebElement × List String :=
  match w with
  | .available => (.ok {}, [])
  | .timedOut => (.error .timeoutError, ["Timeout waiting for element: " ++ selector])

/-- Model of `ElementWaiter.wait_for_element_clickable`: returns the element, or logs
the selector and re-raises the timeout. -/
def wait_for_element_clickable (w : WaitResult) (selector : String) :
    Except PyError WebElement × List String :=
  match w with
  | .available => (.ok {}, [])
  | .timedOut => (.error .timeoutError, ["Timeout waiting for clickable element: " ++ selector])

/-- Model of `ElementWaiter.wait_for_url_contains`: returns `True`, or logs the
fragment and the current URL and re-raises the timeout. -/
def wait_for_url_contains (w : WaitResult) (url_fragment current_url : String) :
    Except PyError Bool × List String :=
  match w with
  | .available => (.ok true, [])
  | .timedOut =>
    (.error .timeoutError,
     ["Timeout waiting for URL containing " ++ url_fragment, "Current URL: " ++ current_url])

/-- Model of `ElementWaiter.wait_for_url_matches`: returns `True`, or logs the pattern
and the current URL and re-raises the timeout. -/
def wait_for_url_matches (w : WaitResult) (pattern current_url : String) :
    Except PyError Bool × List String :=
  match w with
  | .available => (.ok true, [])
  | .timedOut =>
    (.error .timeoutError,
     ["Timeout waiting for URL matching pattern: " ++ pattern, "Current URL: " ++ current_url])

/-- Model of `ElementWaiter.wait_for_element_stale`: returns `True` when the element
goes stale; on timeout it logs a warning and returns `False` — the timeout is
swallowed, not re-raised. -/
def wait_for_element_stale (w : WaitResult) :
    Except PyError Bool × List String :=
  match w with
  | .available => (.ok true, [])
  | .timedOut => (.ok false, ["Element did not become stale"])

/-! ### `FormSubmitter.click_button` (`src/tools/web_automation_tools.py`)

One click attempt consists of a clickability wait, a scroll and the click
itself; the environment says how it turns out. -/

/-- Outcome of one click attempt in the `click_button` loop. -/
inductive ClickOutcome
  | success
  | stale
  | intercepted
  | other (e : PyError)
  deriving Repr, DecidableEq

/-- Whether an attempt outcome is one of the two retried exception classes. -/
def ClickOutcome.retryable : ClickOutcome → Bool
  | .stale => true
  | .intercepted => true
  | _ => false

/-- The exception such an attempt raises (`success` never reaches a handler). -/
def ClickOutcome.toError : ClickOutcome → PyError
  | .stale => .staleElement
  | .intercepted => .clickIntercepted
  | .other e => e
  | .success => .exception "unreachable"

/-- The `for attempt in range(1, max_retries + 1)` loop of `click_button`:
`attempt` is the 1-based counter, `remaining` the number of iterations left.
Returns the number of attempts performed and the result of the call.  A retryable
exception on the last attempt is re-raised; any other exception propagates at
once; the dead `return False` after the loop is the `remaining = 0` case. -/
def clickLoop (env : Nat → ClickOutcome) (attempt : Nat) : Nat → Nat × Except PyError Bool
  | 0 => (0, .ok false)
  | r + 1 =>
    match env attempt with
    | .success => (1, .ok true)
    | o =>
      if o.retryable && decide (0 < r) then
        ((clickLoop env (attempt + 1) r).1 + 1, (clickLoop env (attempt + 1) r).2)
      else (1, .error o.toError)

/-- Model of `FormSubmitter.click_button` with its default `max_retries = 3`. -/
def click_button (env : Nat → ClickOutcome) (max_retries : Nat := 3) :
    Nat × Except PyError Bool :=
  clickLoop env 1 max_retries

/-! ### `FormSubmitter.select_dropdown_option` and the custom-dropdown
dispatch (`src/tools/web_automation_tools.py`,
`CardDealerProWorkflow._fill_general_settings`) -/

/-- One `<option>` of a native `<select>` control. -/
structure DropOption where
  value : String
  text : String
  deriving Repr, DecidableEq

/-- A located native `<select>` element. -/
structure SelectElem where
  options : List DropOption
  deriving Repr, DecidableEq

/-- Model of `Select.select_by_visible_text`: first option whose visible text matches,
else `NoSuchElementException`. -/
def select_by_visible_text (el : SelectElem) (v : String) : Except PyError DropOption :=
  match el.options.find? (fun o => o.text == v) with
  | some o => .ok o
  | none => .error .noSuchElement

/-- Model of `Select.select_by_value`: first option whose value attribute matches,
else `NoSuchElementException`. -/
def select_by_value (el : SelectElem) (v : String) : Except PyError DropOption :=
  match el.options.find? (fun o => o.value == v) with
  | some o => .ok o
  | none => .error .noSuchElement

/-- Model of `FormSubmitter.select_dropdown_option` on an already-located element:
select by visible text; only a `NoSuchElementException` falls back to
selection by value attribute, whose own failure is re-raised. -/
def select_dropdown_option (el : SelectElem) (v : String) : Except PyError DropOption :=
  match select_by_visible_text el v with
  | .ok o => .ok o
  | .error .noSuchElement =>
    match select_by_value el v with
    | .ok o => .ok o
    | .error e => .error e
  | .error e => .error e

/-- Which interaction a dropdown field ends up using. -/
inductive DropdownAct
  | nativeSelectCall (selector value : String)
  | openDropdown (selector : String)
  | clickOption (value : String)
  deriving Repr, DecidableEq

/-- Modelled from the spec: `FormSubmitter.select_custom_dropdown_option` is
called by the workflow and by the tests but is absent from
`src/tools/web_automation_tools.py`.  Per the spec, a custom (non-native)
dropdown variant is selected via click-based interaction instead of the
native select API: the control is clicked open and the option with the
desired text is clicked. -/
def select_custom_dropdown_option (selector v : String) : List DropdownAct :=
  [.openDropdown selector, .clickOption v]

/-- The per-field dispatch of `_fill_general_settings`: the selector
configuration entry `<field>_select_type` decides the variant; the value
`"custom"` routes to the click-based custom interaction, anything else to the
native select API. -/
def fillDropdownField (variant : Option String) (selector v : String) : List DropdownAct :=
  if variant == some "custom" then select_custom_dropdown_option selector v
  else [.nativeSelectCall selector v]

/-! ### `LoginHandler.login` (`src/tools/web_automation_tools.py`)

One attempt is the fixed script navigate → wait(username) → fill →
wait(password) → fill → wait(button) → click → wait(success URL); the
environment says where (if anywhere) the first exception of an attempt occurs.
The browser actions an attempt performs are recorded as a trace. -/

/-- Browser actions of a login attempt. -/
inductive LoginAct
  | navigate (url : String)
  | fillUsername
  | fillPassword
  | clickLogin
  deriving Repr, DecidableEq

/-- Behaviour of the remote UI during one login attempt: at which action of
the script its first exception occurs, or `complete` when every action goes
through (the code then returns `True` whether or not the final URL contains
the expected fragment — both branches return `True`). -/
inductive AttemptSpec
  | failNavigate
  | failWaitUsername
  | failWaitPassword
  | failWaitButton
  | failClick
  | failWaitUrl
  | complete (urlHasPattern : Bool)
  deriving Repr, DecidableEq

/-- Whether the attempt ends in one of the two retry handlers. -/
def AttemptSpec.fails : AttemptSpec → Bool
  | .complete _ => false
  | _ => true

/-- The browser actions an attempt performs before it succeeds or its first
exception fires.  Navigation is attempted first in every attempt; a field is
filled only if its visibility wait went through. -/
def attemptTrace (url : String) : AttemptSpec → List LoginAct
  | .failNavigate => [.navigate url]
  | .failWaitUsername => [.navigate url]
  | .failWaitPassword => [.navigate url, .fillUsername]
  | .failWaitButton => [.navigate url, .fillUsername, .fillPassword]
  | .failClick => [.navigate url, .fillUsername, .fillPassword]
  | .failWaitUrl => [.navigate url, .fillUsername, .fillPassword, .clickLogin]
  | .complete _ => [.navigate url, .fillUsername, .fillPassword, .clickLogin]

/-- The `for attempt in range(1, MAX_LOGIN_RETRIES + 1)` loop of
`LoginHandler.login`.  A completed attempt returns `True`; both exception
handlers pause and `continue`; falling off the loop raises the terminal
error.  Returns the traces of the attempts performed (in order) and the
result of the call. -/
def loginGo (env : Nat → AttemptSpec) (url : String) (attempt : Nat) :
    Nat → List (List LoginAct) × Except PyError Bool
  | 0 => ([], .error (.exception "Login failed after maximum retries"))
  | r + 1 =>
    let tr := attemptTrace url (env attempt)
    match env attempt with
    | .complete _ => ([tr], .ok true)
    | _ =>
      (tr :: (loginGo env url (attempt + 1) r).1, (loginGo env url (attempt + 1) r).2)

/-- Model of `LoginHandler.login` (attempt-loop body, reached once Python has bound the
arguments of the call against the signature). -/
def LoginHandler.login (env : Nat → AttemptSpec) (url : String) :
    List (List LoginAct) × Except PyError Bool :=
  loginGo env url 1 MAX_LOGIN_RETRIES

/-! ### `CardDealerProWorkflow._login` (`src/scripts/image_upload_workflow.py`)

`_login` reads the credentials from the environment, raises `ValueError`
when either is falsy, and then calls `LoginHandler.login` with eight keyword
arguments.  Python binds keyword arguments against the callee signature
before the body runs; an unexpected keyword raises `TypeError` at the call
site. -/

/-- The parameters in the signature of `LoginHandler.login` (besides `self`). -/
def loginParams : List String :=
  ["login_url", "username", "password", "username_selector",
   "password_selector", "login_button_selector", "success_url_pattern"]

/-- The keywords `_login` passes at its `login_handler.login(...)` call site. -/
def loginCallKeywords : List String :=
  ["login_url", "username", "password", "username_selector",
   "password_selector", "login_button_selector", "success_url_pattern",
   "continue_button_selector"]

/-- Python call binding: the first keyword not in the parameter list raises
`TypeError` before the callee body executes. -/
def bindCall (params kwargs : List String) : Option PyError :=
  match kwargs.find? (fun k => !params.contains k) with
  | some k => some (.typeError ("login() got an unexpected keyword argument " ++ k))
  | none => none

/-- Truthiness of an `os.getenv` result (`None` and the empty string are
falsy). -/
def truthy : Option String → Bool
  | none => false
  | some s => s ≠ ""

/-- The process environment and remote-UI behaviour `_login` sees. -/
structure LoginEnv where
  username : Option String
  password : Option String
  attempts : Nat → AttemptSpec

/-- Model of `CardDealerProWorkflow._login`: missing credentials raise `ValueError`;
otherwise the call to `LoginHandler.login` is bound — and since the call
passes `continue_button_selector`, which the signature lacks, binding raises
`TypeError` before any attempt body can run.  Returns the login-action trace
(flattened over attempts) and the result of the step. -/
def CardDealerProWorkflow._login (env : LoginEnv) (loginUrl : String) :
    List (List LoginAct) × Except PyError Bool :=
  if !(truthy env.username && truthy env.password) then
    ([], .error (.valueError "Missing credentials in .env file"))
  else
    match bindCall loginParams loginCallKeywords with
    | some e => ([], .error e)
    | none => LoginHandler.login env.attempts loginUrl

/-! ### `FormNavigator.extract_batch_id_from_url`
(`src/tools/web_automation_tools.py`, pattern from `src/config.py`)

`BATCH_ID_REGEX = r"/batches/([^/]+)/add"`.  `re.search` finds the leftmost
match: at a given start the literal `/batches/` must follow, then the greedy
group `[^/]+` takes the maximal nonempty run of non-slash characters, and the
literal `/add` must follow it.  Because `/add` begins with `/` and the group
cannot contain `/`, backtracking the greedy group can never produce a second
candidate, so the group is exactly that maximal run. -/

/-- Try the pattern anchored at the start of `s`; returns the captured group
(the maximal nonempty slash-free run after the 9 characters of `/batches/`,
provided `/add` follows it). -/
def matchBatchAt (s : List Char) : Option (List Char) :=
  if "/batches/".data.isPrefixOf s then
    if (s.drop 9).takeWhile (fun c => c ≠ '/') ≠ [] ∧
        "/add".data.isPrefixOf ((s.drop 9).dropWhile (fun c => c ≠ '/')) then
      some ((s.drop 9).takeWhile (fun c => c ≠ '/'))
    else none
  else none

/-- Model of `re.search(BATCH_ID_REGEX, s)`: the match at the leftmost feasible start. -/
def reSearchBatchId : List Char → Option (List Char)
  | [] => none
  | c :: rest =>
    match matchBatchAt (c :: rest) with
    | some g => some g
    | none => reSearchBatchId rest

/-- A DOM element as seen by the fallback lookups: the `value` attribute
(empty string models a missing/falsy attribute) and the element text. -/
structure DomElement where
  value : String
  text : String
  deriving Repr, DecidableEq

/-- Python `element.get_attribute("value") or element.text`. -/
def elementBatchId (el : DomElement) : String :=
  if el.value ≠ "" then el.value else el.text

/-- The fallback loop: each selector is looked up; `NoSuchElementException`
and falsy extracted text both move on to the next selector.  Returns the
result and the list of selectors consulted, in order. -/
def tryFallbacks (dom : String → Option DomElement) :
    List String → Option String × List String
  | [] => (none, [])
  | sel :: rest =>
    match dom sel with
    | none =>
      let (r, consulted) := tryFallbacks dom rest
      (r, sel :: consulted)
    | some el =>
      if elementBatchId el ≠ "" then (some (elementBatchId el), [sel])
      else
        let (r, consulted) := tryFallbacks dom rest
        (r, sel :: consulted)

/-- A fallback selector fails when the element is absent
(`NoSuchElementException`) or its extracted text is falsy. -/
def fallbackFails (dom : String → Option DomElement) (sel : String) : Bool :=
  match dom sel with
  | none => true
  | some el => elementBatchId el == ""

/-- Model of `FormNavigator.extract_batch_id_from_url`: regex first; the DOM fallback
selectors are consulted only when the regex finds no match.  Returns the
extracted id (or `none`) and the fallback selectors consulted. -/
def extract_batch_id_from_url (current_url : String) (dom : String → Option DomElement) :
    Option String × List String :=
  match reSearchBatchId current_url.data with
  | some g => (some (String.mk g), [])
  | none => tryFallbacks dom BATCH_ID_FALLBACK_SELECTORS

/-! ### `CardDealerProWorkflow.run` (`src/scripts/image_upload_workflow.py`)

After `_setup_driver` and the inline rotate step, `run` is thirteen
structurally identical guard blocks: each tracked step goes through
`_track_step_time` and a `False` return or a propagated exception ends the
run.  We embed the blocks as a fold over the ordered `(name, outcome)` list;
the outcome of each tracked step is an environment parameter. -/

/-- How one tracked step call ends: `True`, `False`, or an exception. -/
inductive StepOutcome
  | ok
  | retFalse
  | raised (e : PyError)
  deriving Repr, DecidableEq

/-- Model of `CardDealerProWorkflow._track_step_time`: sets `current_step`, records the
timing entry of the step whether the step returns or raises, and on an exception
stores `"{step_name} error: {e}"` in `last_error` before re-raising. -/
def _track_step_time (name : String) (o : StepOutcome) (s : Workflow) :
    Workflow × Except PyError Bool :=
  let s := { s with current_step := name, step_timings := s.step_timings ++ [name] }
  match o with
  | .ok => (s, .ok true)
  | .retFalse => (s, .ok false)
  | .raised e => ({ s with last_error := some (name ++ " error: " ++ e.msg) }, .error e)

/-- The guard-block cascade of `run` over the tracked steps: a `False` return
records `"{name} returned False"` when no message is present yet and stops; a
propagated exception is caught by the outer handler of `run` (the message was
already recorded by `_track_step_time`) and stops; otherwise the next block
runs. -/
def runSteps : List (String × StepOutcome) → Workflow → Workflow × Bool
  | [], s => (s, true)
  | (n, o) :: rest, s =>
    match _track_step_time n o s with
    | (s', .ok true) => runSteps rest s'
    | (s', .ok false) =>
      ({ s' with
          last_error := if s'.last_error = none then some (n ++ " returned False")
                        else s'.last_error }, false)
    | (s', .error _) => (s', false)

/-- The environment of one `run` call: whether `_setup_driver` raises, the
image folder, and the outcome of each tracked step. -/
structure RunEnv where
  setup : Option String := none
  folder : PyFolder
  login : StepOutcome := .ok
  navigate : StepOutcome := .ok
  fillGeneralSettings : StepOutcome := .ok
  continueGeneral : StepOutcome := .ok
  fillOptionalDetails : StepOutcome := .ok
  createBatchSubmit : StepOutcome := .ok
  extractBatchId : StepOutcome := .ok
  magicScan : StepOutcome := .ok
  selectSides : StepOutcome := .ok
  uploadImages : StepOutcome := .ok
  uploadContinue : StepOutcome := .ok
  inspectorView : StepOutcome := .ok

/-- How the result of a tracked step function appears to `_track_step_time`: a
call returning `True`/`False` or raising.  Used to plug the modelled `_login`
into the run environment. -/
def stepOutcomeOfCall (c : List (List LoginAct) × Except PyError Bool) : StepOutcome :=
  match c.2 with
  | .ok true => .ok
  | .ok false => .retFalse
  | .error e => .raised e

/-- The tracked steps in the order `run` executes them; `skip_login` drops the
login block ("Skipping login (already authenticated)"). -/
def trackedSteps (env : RunEnv) (skip_login : Bool) : List (String × StepOutcome) :=
  (if skip_login then [] else [("Login", env.login)]) ++
  [("Navigate", env.navigate),
   ("Fill General Settings", env.fillGeneralSettings),
   ("Continue General", env.continueGeneral),
   ("Fill Optional Details", env.fillOptionalDetails),
   ("Create Batch Submit", env.createBatchSubmit),
   ("Extract Batch ID", env.extractBatchId),
   ("Magic Scan", env.magicScan),
   ("Select Sides", env.selectSides),
   ("Upload Images", env.uploadImages),
   ("Upload Continue", env.uploadContinue),
   ("Inspector View", env.inspectorView)]

/-- Model of `CardDealerProWorkflow.run`: `_setup_driver` (an exception lands in the
outer handler, which records `str(e)` when nothing is recorded yet), then the
inline rotate step with its own `returned False` default message, then the
tracked-step cascade. -/
def CardDealerProWorkflow.run (env : RunEnv) (skip_login : Bool) (s₀ : Workflow) :
    Workflow × Bool :=
  match env.setup with
  | some m =>
    ({ s₀ with last_error := if s₀.last_error = none then some m else s₀.last_error }, false)
  | none =>
    match _rotate_images env.folder s₀ with
    | (s, false) =>
      ({ s with
          last_error := if s.last_error = none then some "Rotate Images returned False"
                        else s.last_error }, false)
    | (s, true) => runSteps (trackedSteps env skip_login) s

/-- The declared step order of the orchestrator (the thirteen steps of `run`). -/
def declaredStepOrder : List String :=
  ["Rotate Images", "Login", "Navigate", "Fill General Settings", "Continue General",
   "Fill Optional Details", "Create Batch Submit", "Extract Batch ID", "Magic Scan",
   "Select Sides", "Upload Images", "Upload Continue", "Inspector View"]

/-- The step order actually applicable to a job: login is skippable on
session reuse. -/
def effectiveOrder (skip_login : Bool) : List String :=
  if skip_login then declaredStepOrder.filter (fun n => n ≠ "Login") else declaredStepOrder

/-- The notion in the spec of a strict (proper) prefix of the declared order. -/
def strictPrefixCheck (xs ys : List String) : Bool :=
  xs.isPrefixOf ys && xs ≠ ys

/-! ### The batch driver `main` (`src/scripts/image_upload_workflow.py`)

The loop appends one outcome record per attempted folder; `workflow.run`
catches its own exceptions (returning `False`), and constructor exceptions
are caught by the per-folder handler.  A `KeyboardInterrupt` (or a fatal
error) outside a `run` call escapes to the outer handler, after which the
`finally` block prints the summary over the recorded results and exits with
`0` iff none of them failed. -/

/-- Outcome of one folder, if the loop gets to attempt it. -/
inductive FolderSpec
  | succeeds
  | runFalse
  | ctorRaises
  deriving Repr, DecidableEq

/-- One run of the batch driver: the planned per-folder outcomes and the
point, if any, at which an interrupt or fatal error aborts the loop
(`some k` = the loop stops after `k` folders were attempted and recorded). -/
structure DriverEnv where
  folders : List FolderSpec
  abortAfter : Option Nat := none
  deriving Repr, DecidableEq

/-- The per-folder outcome records accumulated in `results` (their status
field: `success`, `failed` or `error`). -/
def recordedResults (env : DriverEnv) : List FolderSpec :=
  match env.abortAfter with
  | none => env.folders
  | some k => env.folders.take k

/-- The `failed` counter of the summary: every recorded non-success. -/
def failedCount (env : DriverEnv) : Nat :=
  (recordedResults env).countP (fun r => r ≠ .succeeds)

/-- Python `sys.exit(0 if failed == 0 else 1)`. -/
def driverExitCode (env : DriverEnv) : Nat :=
  if failedCount env = 0 then 0 else 1

/-- Predicate "every folder succeeded": every folder in the argument list was attempted
and succeeded. -/
def everyFolderSucceeded (env : DriverEnv) : Bool :=
  (recordedResults env).length = env.folders.length && env.folders.all (fun f => f = .succeeds)

/-! ## Theorems -/

/-- A retryable attempt that is not the last one recurses into the next
attempt, counting one more attempt. -/
theorem clickLoop_retry_step (env : Nat → ClickOutcome) (a r : Nat)
    (h : (env a).retryable = true) (hr : 0 < r) :
    clickLoop env a (r + 1) =
      ((clickLoop env (a + 1) r).1 + 1, (clickLoop env (a + 1) r).2) := by
  cases he : env a with
  | success => simp [he, ClickOutcome.retryable] at h
  | stale => simp [clickLoop, he, ClickOutcome.retryable, hr]
  | intercepted => simp [clickLoop, he, ClickOutcome.retryable, hr]
  | other e => simp [he, ClickOutcome.retryable] at h

/-- A retryable outcome on the last remaining attempt re-raises. -/
theorem clickLoop_last_raise (env : Nat → ClickOutcome) (a : Nat)
    (h : (env a).retryable = true) :
    clickLoop env a 1 = (1, .error (env a).toError) := by
  cases he : env a with
  | success => simp [he, ClickOutcome.retryable] at h
  | stale => simp [clickLoop, he]
  | intercepted => simp [clickLoop, he]
  | other e => simp [he, ClickOutcome.retryable] at h

/-- A successful attempt returns `True` at once. -/
theorem clickLoop_success (env : Nat → ClickOutcome) (a r : Nat)
    (h : env a = .success) :
    clickLoop env a (r + 1) = (1, .ok true) := by
  simp [clickLoop, h]

/-- A non-retryable exception propagates at once. -/
theorem clickLoop_other (env : Nat → ClickOutcome) (a r : Nat) (e : PyError)
    (h : env a = .other e) :
    clickLoop env a (r + 1) = (1, .error e) := by
  simp [clickLoop, h, ClickOutcome.retryable, ClickOutcome.toError]

/-- Claim C7: with `max_retries = 3`, a stale-element or intercepted-click
condition on the first two attempts followed by a successful third click
returns success after three attempts; those conditions on all three attempts
make the exception of the third attempt propagate; any other exception propagates
immediately, with no further attempts. -/
theorem click_button_retry_semantics :
    (∀ env : Nat → ClickOutcome,
      (env 1).retryable = true → (env 2).retryable = true → env 3 = .success →
      click_button env = (3, .ok true)) ∧
    (∀ env : Nat → ClickOutcome,
      (env 1).retryable = true → (env 2).retryable = true → (env 3).retryable = true →
      click_button env = (3, .error (env 3).toError)) ∧
    (∀ (env : Nat → ClickOutcome) (e : PyError) (k : Nat),
      k < 3 → (∀ i, 1 ≤ i → i ≤ k → (env i).retryable = true) →
      env (k + 1) = .other e →
      click_button env = (k + 1, .error e)) := by
  refine ⟨?_, ?_, ?_⟩
  · intro env h1 h2 h3
    show clickLoop env 1 (2 + 1) = (3, Except.ok true)
    rw [clickLoop_retry_step env 1 2 h1 (by decide),
        clickLoop_retry_step env 2 1 h2 (by decide),
        clickLoop_success env 3 0 h3]
  · intro env h1 h2 h3
    show clickLoop env 1 (2 + 1) = (3, Except.error (env 3).toError)
    rw [clickLoop_retry_step env 1 2 h1 (by decide),
        clickLoop_retry_step env 2 1 h2 (by decide),
        clickLoop_last_raise env 3 h3]
  · intro env e k hk hall he
    interval_cases k
    · exact clickLoop_other env 1 2 e he
    · show clickLoop env 1 (2 + 1) = (2, Except.error e)
      rw [clickLoop_retry_step env 1 2 (hall 1 (by decide) (by decide)) (by decide),
          clickLoop_other env 2 1 e he]
    · show clickLoop env 1 (2 + 1) = (3, Except.error e)
      rw [clickLoop_retry_step env 1 2 (hall 1 (by decide) (by decide)) (by decide),
          clickLoop_retry_step env 2 1 (hall 2 (by decide) (by decide)) (by decide),
          clickLoop_other env 3 0 e he]

/-- Witness for C7 at a concrete environment: stale on the first two
attempts, success on the third. -/
theorem click_button_retry_semantics_witness :
    click_button (fun i => if i < 3 then ClickOutcome.stale else ClickOutcome.success) =
      (3, Except.ok true) :=
  click_button_retry_semantics.1
    (fun i => if i < 3 then ClickOutcome.stale else ClickOutcome.success)
    (by decide) (by decide) (by decide)

/-- Claim C9 (counterexample): `wait_for_element_stale` does not re-raise on
timeout — it swallows the `TimeoutException` and returns `False`. -/
theorem wait_for_element_stale_no_reraise :
    (wait_for_element_stale .timedOut).1 = Except.ok false ∧
    (wait_for_element_stale .timedOut).1 ≠ Except.error PyError.timeoutError :=
  ⟨rfl, fun h => Except.noConfusion h⟩

/-- Claim C9 (amended): each wait-layer primitive performs a single bounded
wait and no retry.  On success, visible/clickable return the element and the
URL waits return `True`.  On timeout, visible/clickable log the attempted
selector (only) and re-raise; the URL waits log the attempted
fragment/pattern and the current URL and re-raise; the staleness wait instead
logs a warning and returns `False`. -/
theorem elementWaiter_wait_semantics :
    (∀ sel, wait_for_element_visible .available sel = (Except.ok {}, []) ∧
      wait_for_element_visible .timedOut sel =
        (Except.error PyError.timeoutError, ["Timeout waiting for element: " ++ sel])) ∧
    (∀ sel, wait_for_element_clickable .available sel = (Except.ok {}, []) ∧
      wait_for_element_clickable .timedOut sel =
        (Except.error PyError.timeoutError,
         ["Timeout waiting for clickable element: " ++ sel])) ∧
    (∀ frag url, wait_for_url_contains .available frag url = (Except.ok true, []) ∧
      wait_for_url_contains .timedOut frag url =
        (Except.error PyError.timeoutError,
         ["Timeout waiting for URL containing " ++ frag, "Current URL: " ++ url])) ∧
    (∀ pat url, wait_for_url_matches .available pat url = (Except.ok true, []) ∧
      wait_for_url_matches .timedOut pat url =
        (Except.error PyError.timeoutError,
         ["Timeout waiting for URL matching pattern: " ++ pat, "Current URL: " ++ url])) ∧
    (wait_for_element_stale .available = (Except.ok true, []) ∧
      wait_for_element_stale .timedOut = (Except.ok false, ["Element did not become stale"])) :=
  ⟨fun _ => ⟨rfl, rfl⟩, fun _ => ⟨rfl, rfl⟩, fun _ _ => ⟨rfl, rfl⟩,
   fun _ _ => ⟨rfl, rfl⟩, rfl, rfl⟩

/-- Claim C3 (counterexample): a filename containing both substrings, such as
`frontback.jpg`, contains `back` yet is assigned orientation 8, not 6 —
`front` takes precedence. -/
theorem rotate_frontback_precedence :
    containsSub "back".data (lowerChars "frontback.jpg".data) = true ∧
    processFile { name := "frontback.jpg", suffix := ".jpg" } =
      ({ front := 1 }, [("frontback.jpg", 8)]) ∧
    classifyOrientation "frontback.jpg" ≠ some 6 := by
  decide

/-- Claim C3 (amended): a filename containing `front` (case-insensitively) is
assigned EXIF orientation 8; otherwise one containing `back` is assigned 6;
one containing neither is not mutated, is counted as skipped, and — like
every enumerated image file — still appears in the ready-for-upload path
list. -/
theorem rotate_classification :
    (∀ f : PyFile, containsSub "front".data (lowerChars f.name.data) = true →
        classifyOrientation f.name = some 8 ∧
        (f.saveRaises = none → processFile f = ({ front := 1 }, [(f.name, 8)]))) ∧
    (∀ f : PyFile, containsSub "front".data (lowerChars f.name.data) = false →
        containsSub "back".data (lowerChars f.name.data) = true →
        classifyOrientation f.name = some 6 ∧
        (f.saveRaises = none → processFile f = ({ back := 1 }, [(f.name, 6)]))) ∧
    (∀ f : PyFile, classifyOrientation f.name = none →
        processFile f = ({ skipped := 1 }, [])) ∧
    (∀ (p : String) (files : List PyFile) (s₀ : Workflow) (f : PyFile),
        f ∈ files → eligibleFile f = true →
        (_rotate_images (.dir p files) s₀).2 = true ∧
        f.name ∈ (_rotate_images (.dir p files) s₀).1.rotated_image_paths) := by
  refine ⟨?_, ?_, ?_, ?_⟩
  · intro f h
    have hc : classifyOrientation f.name = some 8 := by
      simp [classifyOrientation, h]
    refine ⟨hc, fun hs => ?_⟩
    simp [processFile, hc, hs]
  · intro f h h'
    have hc : classifyOrientation f.name = some 6 := by
      simp [classifyOrientation, h, h']
    refine ⟨hc, fun hs => ?_⟩
    simp [processFile, hc, hs]
  · intro f h
    simp [processFile, h]
  · intro p files s₀ f hf he
    have hmem : f ∈ files.filter eligibleFile := List.mem_filter.mpr ⟨hf, he⟩
    have hne : (files.filter eligibleFile).isEmpty = false := by
      cases hl : files.filter eligibleFile with
      | nil => rw [hl] at hmem; cases hmem
      | cons a t => simp
    constructor
    · simp [_rotate_images, hne]
    · simp only [_rotate_images, hne, Bool.false_eq_true, if_false]
      exact List.mem_map.mpr ⟨f, hmem, rfl⟩

/-- Claim C5 (counterexample): a non-existent folder does not yield a
zero-count result — the stand-alone pipeline raises `FileNotFoundError`, and
the workflow-inline rotate step reports failure. -/
theorem rotate_missing_folder_raises :
    rotate_images (.missing "/data/cards/A3") =
      Except.error (PyError.fileNotFound "Folder not found: /data/cards/A3") ∧
    (_rotate_images (.missing "/data/cards/A3") {}).2 = false :=
  ⟨rfl, rfl⟩

/-- Claim C5 (amended): an existing folder with no eligible image files (in
particular an empty one) gives the well-formed stand-alone
zero-count statistics without raising; a missing folder raises
`FileNotFoundError` there.  The workflow-inline rotate step instead reports
both conditions as a step failure: it returns `False` with the error message
recorded rather than raising. -/
theorem pipeline_empty_folder_semantics :
    (∀ p files, (files.filter eligibleFile).isEmpty = true →
        rotate_images (.dir p files) = Except.ok ({} : ScriptStats)) ∧
    (∀ p, rotate_images (.missing p) =
        Except.error (.fileNotFound ("Folder not found: " ++ p))) ∧
    (∀ p s₀, (_rotate_images (.missing p) s₀).2 = false ∧
        (_rotate_images (.missing p) s₀).1.last_error =
          some ("Image folder not found: " ++ p)) ∧
    (∀ p files s₀, (files.filter eligibleFile).isEmpty = true →
        (_rotate_images (.dir p files) s₀).2 = false ∧
        (_rotate_images (.dir p files) s₀).1.last_error =
          some ("No image files found in " ++ p)) := by
  refine ⟨?_, ?_, ?_, ?_⟩
  · intro p files h
    simp [rotate_images, h]
  · intro p
    rfl
  · intro p s₀
    exact ⟨rfl, rfl⟩
  · intro p files s₀ h
    constructor <;> simp [_rotate_images, h]

/-- Witness for the amended C3 at concrete inputs: a `front` file, a `back`
file and an unclassified file in one folder. -/
theorem rotate_classification_witness :
    classifyOrientation "front_01.JPG" = some 8 ∧
    classifyOrientation "card_back.png" = some 6 ∧
    processFile { name := "extra.jpg", suffix := ".jpg" } = ({ skipped := 1 }, []) ∧
    "extra.jpg" ∈
      (_rotate_images
        (.dir "A3"
          [{ name := "front_01.JPG", suffix := ".JPG" },
           { name := "card_back.png", suffix := ".png" },
           { name := "extra.jpg", suffix := ".jpg" }]) {}).1.rotated_image_paths := by
  refine ⟨(rotate_classification.1 { name := "front_01.JPG", suffix := ".JPG" } (by decide)).1,
    ?_, ?_, ?_⟩
  · exact (rotate_classification.2.1 { name := "card_back.png", suffix := ".png" }
      (by decide) (by decide)).1
  · exact rotate_classification.2.2.1 { name := "extra.jpg", suffix := ".jpg" } (by decide)
  · exact (rotate_classification.2.2.2 "A3"
      [{ name := "front_01.JPG", suffix := ".JPG" },
       { name := "card_back.png", suffix := ".png" },
       { name := "extra.jpg", suffix := ".jpg" }] {}
      { name := "extra.jpg", suffix := ".jpg" }
      (by simp) (by decide)).2

/-- Witness for the amended C5 at concrete inputs: an empty folder and a
folder whose only entry fails the extension filter. -/
theorem pipeline_empty_folder_semantics_witness :
    rotate_images (.dir "A3" []) = Except.ok ({} : ScriptStats) ∧
    (_rotate_images (.dir "A3" [{ name := "notes.txt", suffix := ".txt" }]) {}).2 = false := by
  refine ⟨pipeline_empty_folder_semantics.1 "A3" [] (by decide), ?_⟩
  exact (pipeline_empty_folder_semantics.2.2.2 "A3"
    [{ name := "notes.txt", suffix := ".txt" }] {} (by decide)).1

/-- Every login attempt starts by navigating to the login URL. -/
theorem attemptTrace_starts_with_navigate (url : String) (s : AttemptSpec) :
    (attemptTrace url s).head? = some (.navigate url) := by
  cases s <;> rfl

/-- A login attempt fills the password only if it also filled the username
(in that attempt, after its own navigation). -/
theorem attemptTrace_fill_order (url : String) (s : AttemptSpec) :
    LoginAct.fillPassword ∈ attemptTrace url s → LoginAct.fillUsername ∈ attemptTrace url s := by
  cases s <;> simp [attemptTrace]

/-- An attempt whose first failure is the final success-URL wait has filled
both fields. -/
theorem attemptTrace_failWaitUrl_fills (url : String) :
    LoginAct.fillUsername ∈ attemptTrace url .failWaitUrl ∧
    LoginAct.fillPassword ∈ attemptTrace url .failWaitUrl := by
  simp [attemptTrace]

/-- A failing attempt records its trace and passes control to the next one. -/
theorem loginGo_fail_step (env : Nat → AttemptSpec) (url : String) (a r : Nat)
    (h : (env a).fails = true) :
    loginGo env url a (r + 1) =
      (attemptTrace url (env a) :: (loginGo env url (a + 1) r).1,
       (loginGo env url (a + 1) r).2) := by
  cases he : env a with
  | complete b => rw [he] at h; simp [AttemptSpec.fails] at h
  | failNavigate => simp [loginGo, he]
  | failWaitUsername => simp [loginGo, he]
  | failWaitPassword => simp [loginGo, he]
  | failWaitButton => simp [loginGo, he]
  | failClick => simp [loginGo, he]
  | failWaitUrl => simp [loginGo, he]

/-- Claim C4 (counterexample): when every attempt times out at the username
visibility wait for the username field, the call makes its three attempts and raises the
terminal error, but no attempt fills either credential field — refuting
"each attempt … re-fills both the username and password fields". -/
theorem login_all_timeouts_no_refill :
    (LoginHandler.login (fun _ => .failWaitUsername) "https://carddealerpro.com/login").1.length =
      MAX_LOGIN_RETRIES ∧
    (LoginHandler.login (fun _ => .failWaitUsername) "https://carddealerpro.com/login").2 =
      Except.error (PyError.exception "Login failed after maximum retries") ∧
    ¬ (∀ t ∈ (LoginHandler.login (fun _ => .failWaitUsername)
          "https://carddealerpro.com/login").1,
        LoginAct.fillUsername ∈ t ∧ LoginAct.fillPassword ∈ t) := by
  refine ⟨rfl, rfl, fun h => ?_⟩
  have := h [.navigate "https://carddealerpro.com/login"] (by decide)
  exact absurd this.1 (by decide)

/-- Claim C4 (amended): when every attempt times out or raises, exactly
`MAX_LOGIN_RETRIES` attempts are made and the terminal error is raised (no
`False` return).  Each attempt is a full restart beginning with navigation to
the login URL; the credential fields are re-filled within an attempt exactly
as far as the waits of the attempt go through — an attempt whose first failure
is the final success-URL wait has re-filled both, while one failing at an
earlier wait has not reached the later fills. -/
theorem login_exhausts_retries (env : Nat → AttemptSpec) (url : String)
    (hall : ∀ i, 1 ≤ i → i ≤ MAX_LOGIN_RETRIES → (env i).fails = true) :
    LoginHandler.login env url =
      ([attemptTrace url (env 1), attemptTrace url (env 2), attemptTrace url (env 3)],
       Except.error (PyError.exception "Login failed after maximum retries")) ∧
    (∀ t ∈ (LoginHandler.login env url).1, t.head? = some (LoginAct.navigate url)) ∧
    (∀ t ∈ (LoginHandler.login env url).1,
      LoginAct.fillPassword ∈ t → LoginAct.fillUsername ∈ t) ∧
    (∀ i, 1 ≤ i → i ≤ MAX_LOGIN_RETRIES → env i = .failWaitUrl →
      LoginAct.fillUsername ∈ attemptTrace url (env i) ∧
      LoginAct.fillPassword ∈ attemptTrace url (env i)) := by
  have hmain : LoginHandler.login env url =
      ([attemptTrace url (env 1), attemptTrace url (env 2), attemptTrace url (env 3)],
       Except.error (PyError.exception "Login failed after maximum retries")) := by
    show loginGo env url 1 (2 + 1) = _
    rw [loginGo_fail_step env url 1 2 (hall 1 (by decide) (by decide)),
        loginGo_fail_step env url 2 1 (hall 2 (by decide) (by decide)),
        loginGo_fail_step env url 3 0 (hall 3 (by decide) (by decide))]
    rfl
  refine ⟨hmain, ?_, ?_, ?_⟩
  · intro t ht
    rw [hmain] at ht
    simp only [List.mem_cons, List.mem_singleton, List.not_mem_nil, or_false] at ht
    rcases ht with h | h | h <;> rw [h] <;> exact attemptTrace_starts_with_navigate url _
  · intro t ht
    rw [hmain] at ht
    simp only [List.mem_cons, List.mem_singleton, List.not_mem_nil, or_false] at ht
    rcases ht with h | h | h <;> rw [h] <;> exact attemptTrace_fill_order url _
  · intro i _ _ hi
    rw [hi]
    exact attemptTrace_failWaitUrl_fills url

/-- Witness for the amended C4: every attempt fails at the final success-URL
wait; three attempts are made, each navigating and filling both fields, and
the terminal error is raised. -/
theorem login_exhausts_retries_witness :
    LoginHandler.login (fun _ => .failWaitUrl) "https://carddealerpro.com/login" =
      ([attemptTrace "https://carddealerpro.com/login" .failWaitUrl,
        attemptTrace "https://carddealerpro.com/login" .failWaitUrl,
        attemptTrace "https://carddealerpro.com/login" .failWaitUrl],
       Except.error (PyError.exception "Login failed after maximum retries")) :=
  (login_exhausts_retries (fun _ => .failWaitUrl) "https://carddealerpro.com/login"
    (fun _ _ _ => rfl)).1

/-- A list with a last element is nonempty. -/
theorem ne_nil_of_getLast?_eq_some {α : Type} {l : List α} {x : α}
    (h : l.getLast? = some x) : l ≠ [] := by
  intro h0
  rw [h0] at h
  cases h

/-- Behaviour of the tracked-step cascade: some number `k` of leading steps
is recorded, in order; a `True` overall result means every step was recorded;
a `False` result means at least one step ran, the last recorded step is the
one `current_step` points at, and an error message is recorded. -/
theorem runSteps_spec : ∀ (l : List (String × StepOutcome)) (s : Workflow),
    ∃ k, k ≤ l.length ∧
      (runSteps l s).1.step_timings = s.step_timings ++ (l.map Prod.fst).take k ∧
      ((runSteps l s).2 = true → k = l.length) ∧
      ((runSteps l s).2 = false →
        0 < k ∧ ((l.map Prod.fst).take k).getLast? = some (runSteps l s).1.current_step ∧
        (runSteps l s).1.last_error.isSome = true) := by
  intro l
  induction l with
  | nil => intro s; exact ⟨0, by simp [runSteps]⟩
  | cons hd rest ih =>
    intro s
    obtain ⟨n, o⟩ := hd
    cases o with
    | ok =>
      obtain ⟨k', h1, h2, h3, h4⟩ :=
        ih { s with current_step := n, step_timings := s.step_timings ++ [n] }
      have hred : runSteps ((n, StepOutcome.ok) :: rest) s =
          runSteps rest { s with current_step := n, step_timings := s.step_timings ++ [n] } := by
        simp [runSteps, _track_step_time]
      refine ⟨k' + 1, by simpa using Nat.succ_le_succ h1, ?_, ?_, ?_⟩
      · rw [hred, h2]
        simp
      · intro ht
        rw [hred] at ht
        simp [h3 ht]
      · intro hf
        rw [hred] at hf
        obtain ⟨hk', hlast, herr⟩ := h4 hf
        refine ⟨Nat.succ_pos k', ?_, by rw [hred]; exact herr⟩
        rw [hred]
        have hne : (rest.map Prod.fst).take k' ≠ [] := ne_nil_of_getLast?_eq_some hlast
        calc (List.take (k' + 1) (List.map Prod.fst ((n, StepOutcome.ok) :: rest))).getLast?
            = ([n] ++ (rest.map Prod.fst).take k').getLast? := by simp
          _ = ((rest.map Prod.fst).take k').getLast? :=
              List.getLast?_append_of_ne_nil [n] hne
          _ = _ := hlast
    | retFalse =>
      refine ⟨1, by simp, ?_, ?_, ?_⟩
      · simp [runSteps, _track_step_time]
      · intro ht
        simp [runSteps, _track_step_time] at ht
      · intro _
        refine ⟨Nat.one_pos, by simp [runSteps, _track_step_time], ?_⟩
        cases hs : s.last_error <;> simp [runSteps, _track_step_time, hs]
    | raised e =>
      refine ⟨1, by simp, ?_, ?_, ?_⟩
      · simp [runSteps, _track_step_time]
      · intro ht
        simp [runSteps, _track_step_time] at ht
      · intro _
        exact ⟨Nat.one_pos, by simp [runSteps, _track_step_time],
          by simp [runSteps, _track_step_time]⟩

/-- The declared order is the rotate step followed by the tracked steps. -/
theorem effectiveOrder_eq_cons (env : RunEnv) (skip_login : Bool) :
    effectiveOrder skip_login = "Rotate Images" :: (trackedSteps env skip_login).map Prod.fst := by
  cases skip_login <;> rfl

/-- Claim C1 (counterexample): on a fully successful run the recorded
step-timing sequence is the whole declared step order, which is not a
*strict* prefix of it. -/
theorem run_full_success_records_whole_order :
    (CardDealerProWorkflow.run
        { folder := PyFolder.dir "A3" [{ name := "front.jpg", suffix := ".jpg" }] }
        false {}).2 = true ∧
    (CardDealerProWorkflow.run
        { folder := PyFolder.dir "A3" [{ name := "front.jpg", suffix := ".jpg" }] }
        false {}).1.step_timings = declaredStepOrder ∧
    strictPrefixCheck
      (CardDealerProWorkflow.run
        { folder := PyFolder.dir "A3" [{ name := "front.jpg", suffix := ".jpg" }] }
        false {}).1.step_timings declaredStepOrder = false := by
  decide

/-- Claim C1 (amended): the recorded step-timing sequence of a run is always
a prefix of the declared step order (with Login dropped exactly when
`skip_login` is set): no step is skipped, and no step after the first failing
step is executed or recorded.  A successful run records the whole order.  A
failed run records an error message, and — unless the failure preceded the
steps (driver setup) — `current_step` holds the name of the failing step: it is
the last recorded step, except that a failure of the inline rotate step
leaves no timing entry while still naming "Rotate Images". -/
theorem run_step_record_invariant (env : RunEnv) (skip_login : Bool) :
    (∃ k, (CardDealerProWorkflow.run env skip_login {}).1.step_timings =
        (effectiveOrder skip_login).take k) ∧
    ((CardDealerProWorkflow.run env skip_login {}).2 = true →
      (CardDealerProWorkflow.run env skip_login {}).1.step_timings =
        effectiveOrder skip_login) ∧
    ((CardDealerProWorkflow.run env skip_login {}).2 = false →
      (CardDealerProWorkflow.run env skip_login {}).1.last_error.isSome = true) ∧
    ((CardDealerProWorkflow.run env skip_login {}).2 = false → env.setup = none →
      ((CardDealerProWorkflow.run env skip_login {}).1.step_timings = [] ∧
        (CardDealerProWorkflow.run env skip_login {}).1.current_step = "Rotate Images") ∨
      (CardDealerProWorkflow.run env skip_login {}).1.step_timings.getLast? =
        some (CardDealerProWorkflow.run env skip_login {}).1.current_step) := by
  cases hsetup : env.setup with
  | some m =>
    have hr : CardDealerProWorkflow.run env skip_login {} =
        ({ last_error := some m }, false) := by
      simp [CardDealerProWorkflow.run, hsetup]
    refine ⟨⟨0, by rw [hr]; simp⟩, ?_, ?_, ?_⟩
    · intro ht; rw [hr] at ht; cases ht
    · intro _; rw [hr]; rfl
    · intro _ hsn; simp at hsn
  | none =>
    cases hfold : env.folder with
    | missing p =>
      have hr : CardDealerProWorkflow.run env skip_login {} =
          ({ current_step := "Rotate Images",
             last_error := some ("Image folder not found: " ++ p) }, false) := by
        simp [CardDealerProWorkflow.run, hsetup, hfold, _rotate_images]
      refine ⟨⟨0, by rw [hr]; simp⟩, ?_, ?_, ?_⟩
      · intro ht; rw [hr] at ht; cases ht
      · intro _; rw [hr]; rfl
      · intro _ _; left; rw [hr]; exact ⟨rfl, rfl⟩
    | notDir p =>
      have hr : CardDealerProWorkflow.run env skip_login {} =
          ({ current_step := "Rotate Images",
             last_error := some ("Rotate Images failed: Not a directory: " ++ p) }, false) := by
        simp [CardDealerProWorkflow.run, hsetup, hfold, _rotate_images]
      refine ⟨⟨0, by rw [hr]; simp⟩, ?_, ?_, ?_⟩
      · intro ht; rw [hr] at ht; cases ht
      · intro _; rw [hr]; rfl
      · intro _ _; left; rw [hr]; exact ⟨rfl, rfl⟩
    | dir p files =>
      cases hem : (files.filter eligibleFile).isEmpty with
      | true =>
        have hr : CardDealerProWorkflow.run env skip_login {} =
            ({ current_step := "Rotate Images",
               last_error := some ("No image files found in " ++ p) }, false) := by
          simp [CardDealerProWorkflow.run, hsetup, hfold, _rotate_images, hem]
        refine ⟨⟨0, by rw [hr]; simp⟩, ?_, ?_, ?_⟩
        · intro ht; rw [hr] at ht; cases ht
        · intro _; rw [hr]; rfl
        · intro _ _; left; rw [hr]; exact ⟨rfl, rfl⟩
      | false =>
        have hr : CardDealerProWorkflow.run env skip_login {} =
            runSteps (trackedSteps env skip_login)
              { step_timings := ["Rotate Images"], current_step := "Rotate Images",
                rotated_image_paths := (files.filter eligibleFile).map PyFile.name,
                total_images := (files.filter eligibleFile).length } := by
          simp [CardDealerProWorkflow.run, hsetup, hfold, _rotate_images, hem]
        obtain ⟨k, hk, htim, htrue, hfalse⟩ :=
          runSteps_spec (trackedSteps env skip_login)
            { step_timings := ["Rotate Images"], current_step := "Rotate Images",
              rotated_image_paths := (files.filter eligibleFile).map PyFile.name,
              total_images := (files.filter eligibleFile).length }
        refine ⟨⟨k + 1, ?_⟩, ?_, ?_, ?_⟩
        · rw [hr, htim, effectiveOrder_eq_cons env skip_login]
          simp
        · intro ht
          rw [hr] at ht ⊢
          rw [htim, htrue ht, effectiveOrder_eq_cons env skip_login]
          simp
        · intro hf
          rw [hr] at hf ⊢
          exact (hfalse hf).2.2
        · intro hf _
          rw [hr] at hf ⊢
          obtain ⟨hkpos, hlast, _⟩ := hfalse hf
          right
          have hne : ((trackedSteps env skip_login).map Prod.fst).take k ≠ [] :=
            ne_nil_of_getLast?_eq_some hlast
          rw [htim, List.getLast?_append_of_ne_nil _ hne]
          exact hlast

/-- Witness for the amended C1: a run whose Navigate step returns `False`
ends with a recorded error message. -/
theorem run_step_record_invariant_witness :
    (CardDealerProWorkflow.run
        { folder := PyFolder.dir "A3" [{ name := "front.jpg", suffix := ".jpg" }],
          navigate := StepOutcome.retFalse } false {}).1.last_error.isSome = true :=
  (run_step_record_invariant
    { folder := PyFolder.dir "A3" [{ name := "front.jpg", suffix := ".jpg" }],
      navigate := StepOutcome.retFalse } false).2.2.1 (by decide)

/-- Claim C2: when the Login step runs (rotate succeeded, `skip_login` is
false) with credentials present, `_login` raises `TypeError` at the
`login_handler.login(...)` call — the call passes
`continue_button_selector`, which the signature lacks — before any login
attempt is made (no browser action at all); the run fails at the Login step
and advances no further. -/
theorem login_step_typeerror (lenv : LoginEnv) (url : String) (env : RunEnv)
    (p : String) (files : List PyFile)
    (hu : truthy lenv.username = true) (hp : truthy lenv.password = true)
    (hsetup : env.setup = none)
    (hfold : env.folder = PyFolder.dir p files)
    (hne : (files.filter eligibleFile).isEmpty = false)
    (hlogin : env.login = stepOutcomeOfCall (CardDealerProWorkflow._login lenv url)) :
    CardDealerProWorkflow._login lenv url =
      ([], Except.error (PyError.typeError
        "login() got an unexpected keyword argument continue_button_selector")) ∧
    (CardDealerProWorkflow.run env false {}).2 = false ∧
    (CardDealerProWorkflow.run env false {}).1.current_step = "Login" ∧
    (CardDealerProWorkflow.run env false {}).1.step_timings = ["Rotate Images", "Login"] ∧
    (CardDealerProWorkflow.run env false {}).1.last_error =
      some "Login error: login() got an unexpected keyword argument continue_button_selector" := by
  have h1 : CardDealerProWorkflow._login lenv url =
      ([], Except.error (PyError.typeError
        "login() got an unexpected keyword argument continue_button_selector")) := by
    unfold CardDealerProWorkflow._login
    rw [hu, hp]
    rfl
  have hlog : env.login = StepOutcome.raised (PyError.typeError
      "login() got an unexpected keyword argument continue_button_selector") := by
    rw [hlogin, h1]
    rfl
  have hrun : CardDealerProWorkflow.run env false {} =
      ({ step_timings := ["Rotate Images", "Login"], current_step := "Login",
         last_error :=
           some "Login error: login() got an unexpected keyword argument continue_button_selector",
         rotated_image_paths := (files.filter eligibleFile).map PyFile.name,
         total_images := (files.filter eligibleFile).length }, false) := by
    simp [CardDealerProWorkflow.run, hsetup, hfold, _rotate_images, hne, trackedSteps,
      hlog, runSteps, _track_step_time, PyError.msg]
  exact ⟨h1, by rw [hrun], by rw [hrun], by rw [hrun], by rw [hrun]⟩

/-- Witness for C2 at a concrete environment: credentials set, one eligible
image, remote UI willing — the run still fails at Login with the recorded
`TypeError` text. -/
theorem login_step_typeerror_witness :
    (CardDealerProWorkflow.run
        { folder := PyFolder.dir "A3" [{ name := "front.jpg", suffix := ".jpg" }],
          login := stepOutcomeOfCall (CardDealerProWorkflow._login
            { username := some "user", password := some "secret",
              attempts := fun _ => .complete true } "https://carddealerpro.com/login") }
        false {}).2 = false ∧
    (CardDealerProWorkflow.run
        { folder := PyFolder.dir "A3" [{ name := "front.jpg", suffix := ".jpg" }],
          login := stepOutcomeOfCall (CardDealerProWorkflow._login
            { username := some "user", password := some "secret",
              attempts := fun _ => .complete true } "https://carddealerpro.com/login") }
        false {}).1.current_step = "Login" :=
  ⟨(login_step_typeerror
      { username := some "user", password := some "secret",
        attempts := fun _ => .complete true }
      "https://carddealerpro.com/login"
      { folder := PyFolder.dir "A3" [{ name := "front.jpg", suffix := ".jpg" }],
        login := stepOutcomeOfCall (CardDealerProWorkflow._login
          { username := some "user", password := some "secret",
            attempts := fun _ => .complete true } "https://carddealerpro.com/login") }
      "A3" [{ name := "front.jpg", suffix := ".jpg" }]
      rfl rfl rfl rfl (by decide) rfl).2.1,
   (login_step_typeerror
      { username := some "user", password := some "secret",
        attempts := fun _ => .complete true }
      "https://carddealerpro.com/login"
      { folder := PyFolder.dir "A3" [{ name := "front.jpg", suffix := ".jpg" }],
        login := stepOutcomeOfCall (CardDealerProWorkflow._login
          { username := some "user", password := some "secret",
            attempts := fun _ => .complete true } "https://carddealerpro.com/login") }
      "A3" [{ name := "front.jpg", suffix := ".jpg" }]
      rfl rfl rfl rfl (by decide) rfl).2.2.1⟩

/-- Soundness of the anchored match: the captured group sits between the
literal `/batches/` and the literal `/add`, is nonempty, and contains no
slash. -/
theorem matchBatchAt_sound {s g : List Char} (h : matchBatchAt s = some g) :
    ∃ suf, s = "/batches/".data ++ g ++ "/add".data ++ suf ∧ g ≠ [] ∧
      ∀ c ∈ g, c ≠ '/' := by
  unfold matchBatchAt at h
  split at h
  case isFalse => cases h
  case isTrue hpre =>
    split at h
    case isFalse => cases h
    case isTrue hcond =>
      obtain ⟨hg0, hadd⟩ := hcond
      injection h with h
      subst h
      obtain ⟨t, ht⟩ := List.isPrefixOf_iff_prefix.mp hpre
      have hdrop : s.drop 9 = t := by
        rw [← ht]
        exact List.drop_left' rfl
      rw [hdrop] at hg0 hadd ⊢
      obtain ⟨suf, hsuf⟩ := List.isPrefixOf_iff_prefix.mp hadd
      refine ⟨suf, ?_, hg0, ?_⟩
      · rw [← ht]
        conv_lhs =>
          rw [← List.takeWhile_append_dropWhile (p := fun c => decide (c ≠ '/')) (l := t)]
        rw [← hsuf]
        simp [List.append_assoc]
      · intro c hc
        simpa using List.mem_takeWhile_imp hc

/-- Soundness of `re.search` with the batch-id pattern. -/
theorem reSearchBatchId_sound : ∀ {s g : List Char}, reSearchBatchId s = some g →
    ∃ pre suf, s = pre ++ "/batches/".data ++ g ++ "/add".data ++ suf ∧ g ≠ [] ∧
      ∀ c ∈ g, c ≠ '/' := by
  intro s
  induction s with
  | nil => intro g h; cases h
  | cons c rest ih =>
    intro g h
    unfold reSearchBatchId at h
    cases hm : matchBatchAt (c :: rest) with
    | some g' =>
      rw [hm] at h
      injection h with h
      subst h
      obtain ⟨suf, hs, hg, hnz⟩ := matchBatchAt_sound hm
      exact ⟨[], suf, by simpa using hs, hg, hnz⟩
    | none =>
      rw [hm] at h
      obtain ⟨pre, suf, hs, hg, hnz⟩ := ih h
      refine ⟨c :: pre, suf, ?_, hg, hnz⟩
      simp only [List.cons_append]
      exact congrArg (List.cons c) hs

/-- The fallback loop returns `none` exactly when every selector fails. -/
theorem tryFallbacks_none_iff (dom : String → Option DomElement) :
    ∀ l : List String,
      (tryFallbacks dom l).1 = none ↔ ∀ sel ∈ l, fallbackFails dom sel = true := by
  intro l
  induction l with
  | nil => simp [tryFallbacks]
  | cons sel rest ih =>
    cases hd : dom sel with
    | none =>
      simp only [tryFallbacks, hd, List.mem_cons]
      constructor
      · intro h x hx
        rcases hx with hx | hx
        · subst hx; simp [fallbackFails, hd]
        · exact (ih.mp h) x hx
      · intro h
        exact ih.mpr fun x hx => h x (Or.inr hx)
    | some el =>
      by_cases hid : elementBatchId el = ""
      · simp only [tryFallbacks, hd, hid, ne_eq, not_true_eq_false, if_false,
          List.mem_cons]
        constructor
        · intro h x hx
          rcases hx with hx | hx
          · subst hx; simp [fallbackFails, hd, hid]
          · exact (ih.mp h) x hx
        · intro h
          exact ih.mpr fun x hx => h x (Or.inr hx)
      · simp only [tryFallbacks, hd, hid, ne_eq, not_false_eq_true, if_true]
        constructor
        · intro h; cases h
        · intro h
          have := h sel (List.mem_cons_self sel rest)
          simp [fallbackFails, hd, hid] at this

/-- Claim C6: the regex is applied first; on a match the returned identifier
is exactly the captured group sitting between `/batches/` and `/add` in the
URL and no fallback selector is consulted; the fallback list is consulted
only when the regex fails; `None` comes back exactly when the regex and every
fallback selector fail. -/
theorem extract_batch_id_semantics (url : String) (dom : String → Option DomElement) :
    (∀ g, reSearchBatchId url.data = some g →
      extract_batch_id_from_url url dom = (some (String.mk g), []) ∧
      ∃ pre suf, url.data = pre ++ "/batches/".data ++ g ++ "/add".data ++ suf ∧
        g ≠ [] ∧ ∀ c ∈ g, c ≠ '/') ∧
    (reSearchBatchId url.data = none →
      extract_batch_id_from_url url dom = tryFallbacks dom BATCH_ID_FALLBACK_SELECTORS) ∧
    ((extract_batch_id_from_url url dom).1 = none ↔
      reSearchBatchId url.data = none ∧
      ∀ sel ∈ BATCH_ID_FALLBACK_SELECTORS, fallbackFails dom sel = true) := by
  refine ⟨?_, ?_, ?_⟩
  · intro g hg
    constructor
    · unfold extract_batch_id_from_url
      rw [hg]
    · exact reSearchBatchId_sound hg
  · intro hnone
    unfold extract_batch_id_from_url
    rw [hnone]
  · cases hre : reSearchBatchId url.data with
    | some g =>
      unfold extract_batch_id_from_url
      rw [hre]
      simp
    | none =>
      unfold extract_batch_id_from_url
      rw [hre]
      simp only [true_and]
      exact tryFallbacks_none_iff dom BATCH_ID_FALLBACK_SELECTORS

/-- Witness for C6: a concrete post-creation URL; the id is extracted by the
regex alone, and with an empty DOM the id-less URL falls through every
fallback to `None`. -/
theorem extract_batch_id_semantics_witness :
    extract_batch_id_from_url "https://carddealerpro.com/batches/abc123/add/types"
      (fun _ => none) = (some "abc123", []) ∧
    (extract_batch_id_from_url "https://carddealerpro.com/inventory"
      (fun _ => none)).1 = none :=
  ⟨((extract_batch_id_semantics "https://carddealerpro.com/batches/abc123/add/types"
      (fun _ => none)).1 "abc123".data (by decide)).1,
   (extract_batch_id_semantics "https://carddealerpro.com/inventory"
      (fun _ => none)).2.2.mpr ⟨by decide, fun sel _ => rfl⟩⟩

/-- Claim C10 (counterexample): a run over two folders that is interrupted
after the first folder succeeded exits with status 0 although the second
folder never succeeded. -/
theorem driver_interrupted_exit_zero :
    driverExitCode { folders := [.succeeds, .succeeds], abortAfter := some 1 } = 0 ∧
    everyFolderSucceeded { folders := [.succeeds, .succeeds], abortAfter := some 1 } = false := by
  decide

/-- Claim C10 (amended): the driver exits 0 exactly when no *recorded*
per-folder outcome is a failure.  When the loop runs to completion this means
every folder in the list succeeded; a run aborted by an interrupt or fatal
error is judged on the folders attempted so far only. -/
theorem driver_exit_code_semantics (env : DriverEnv) :
    (driverExitCode env = 0 ↔ ∀ r ∈ recordedResults env, r = FolderSpec.succeeds) ∧
    (env.abortAfter = none →
      (driverExitCode env = 0 ↔ ∀ f ∈ env.folders, f = FolderSpec.succeeds)) := by
  have hmain : driverExitCode env = 0 ↔ ∀ r ∈ recordedResults env, r = FolderSpec.succeeds := by
    unfold driverExitCode failedCount
    constructor
    · intro h
      split at h
      case isTrue hc =>
        intro r hr
        have := (List.countP_eq_zero.mp hc) r hr
        simpa using this
      case isFalse hc => cases h
    · intro hall
      have hc : (recordedResults env).countP (fun r => r ≠ FolderSpec.succeeds) = 0 :=
        List.countP_eq_zero.mpr (fun a ha => by simp [hall a ha])
      rw [if_pos hc]
  have hrec : env.abortAfter = none → recordedResults env = env.folders := by
    intro hnone
    unfold recordedResults
    rw [hnone]
  exact ⟨hmain, fun hnone => by rw [hmain, hrec hnone]⟩

/-- Witness for the amended C10: an uninterrupted all-success run exits 0. -/
theorem driver_exit_code_semantics_witness :
    driverExitCode { folders := [FolderSpec.succeeds, FolderSpec.succeeds] } = 0 :=
  ((driver_exit_code_semantics { folders := [FolderSpec.succeeds, FolderSpec.succeeds] }).2
    rfl).mpr (by decide)

/-- Claim C8: a native dropdown is selected by visible text; only a
no-such-element condition falls back to selection by the value attribute; if
neither matches, the call raises.  A field whose selector configuration
declares the `custom` variant is driven by click-based interaction instead of
the native select API. -/
theorem select_dropdown_semantics :
    (∀ (el : SelectElem) (v : String) (o : DropOption),
      el.options.find? (fun o => o.text == v) = some o →
      select_dropdown_option el v = .ok o) ∧
    (∀ (el : SelectElem) (v : String) (o : DropOption),
      el.options.find? (fun o => o.text == v) = none →
      el.options.find? (fun o => o.value == v) = some o →
      select_dropdown_option el v = .ok o) ∧
    (∀ (el : SelectElem) (v : String),
      el.options.find? (fun o => o.text == v) = none →
      el.options.find? (fun o => o.value == v) = none →
      select_dropdown_option el v = .error .noSuchElement) ∧
    (∀ selector v,
      fillDropdownField (some "custom") selector v =
        [.openDropdown selector, .clickOption v] ∧
      ∀ variant, variant ≠ some "custom" →
        fillDropdownField variant selector v = [.nativeSelectCall selector v]) := by
  refine ⟨?_, ?_, ?_, ?_⟩
  · intro el v o h
    unfold select_dropdown_option select_by_visible_text
    rw [h]
  · intro el v o h1 h2
    unfold select_dropdown_option select_by_visible_text select_by_value
    rw [h1, h2]
  · intro el v h1 h2
    unfold select_dropdown_option select_by_visible_text select_by_value
    rw [h1, h2]
  · intro selector v
    refine ⟨rfl, ?_⟩
    intro variant hv
    simp [fillDropdownField, select_custom_dropdown_option, hv]

/-- Witness for C8 at concrete inputs: a text match, a value-only match, and
the click-based custom path. -/
theorem select_dropdown_semantics_witness :
    select_dropdown_option { options := [{ value := "std", text := "Standard" }] } "Standard" =
      Except.ok { value := "std", text := "Standard" } ∧
    select_dropdown_option { options := [{ value := "std", text := "Standard" }] } "std" =
      Except.ok { value := "std", text := "Standard" } ∧
    fillDropdownField (some "custom") "select#batch-type" "Magic Scan Batch" =
      [DropdownAct.openDropdown "select#batch-type",
       DropdownAct.clickOption "Magic Scan Batch"] :=
  ⟨select_dropdown_semantics.1 _ "Standard" _ (by decide),
   select_dropdown_semantics.2.1 _ "std" _ (by decide) (by decide),
   (select_dropdown_semantics.2.2.2 "select#batch-type" "Magic Scan Batch").1⟩

end CardUpload
